import Mathlib

/-!
Shallow embedding of the CashBoard core (models, data service, CashBot
insight engine) and proofs about it.

Conventions of the embedding:
* JS numbers are modelled as rationals (`ℚ`); all the arithmetic the
  embedded functions perform is exact on the inputs considered.
* A possibly-absent object property (`undefined`) is an `Option`.
* JS `a || b` defaulting keys on falsiness: `""`, `0`, `false`,
  `null`/`undefined` are falsy; arrays and objects are always truthy.
  The `jsOr*` helpers below implement this per type.
* `Math.round x` is `⌊x + 1/2⌋` (JS rounds half toward +infinity).
* The clock-dependent parts (`generateID`, `new Date()`,
  `getCurrentPeriodDates`) are abstracted as parameters: a fresh-id
  string, a today string, and an `inPeriod : String → Bool` membership
  test for the budget's current period window.
-/

namespace CashBoard

/-- JS `a || b` for a possibly-absent string property: `""`, `null` and
`undefined` are falsy and fall back to the default. -/
def jsOrS (x : Option String) (dflt : String) : String :=
  match x with
  | none => dflt
  | some s => if s = "" then dflt else s

/-- JS `a || b` for a possibly-absent number property: `0` (and absence)
falls back to the default. -/
def jsOrQ (x : Option ℚ) (dflt : ℚ) : ℚ :=
  match x with
  | none => dflt
  | some q => if q = 0 then dflt else q

/-- JS `a || b` for a possibly-absent boolean property: `false` (and
absence) falls back to the default. -/
def jsOrB (x : Option Bool) (dflt : Bool) : Bool :=
  match x with
  | none => dflt
  | some b => if b then b else dflt

/-- JS `a || null` for a possibly-absent, nullable string property
(`receipt`, `location`): a payload value is absent (`none`), `null`
(`some none`) or a string (`some (some s)`); absence, `null` and `""`
all give `null`. -/
def jsOrNull (x : Option (Option String)) : Option String :=
  match x with
  | none => none
  | some none => none
  | some (some s) => if s = "" then none else some s

/-- JS `Math.round`: round half toward positive infinity. -/
def jsRound (q : ℚ) : ℤ := ⌊q + 1/2⌋

/-- JS `x >= y` where `y` may be `undefined` (an absent object property):
any relational comparison with `undefined` is false. -/
def jsGe (x : ℚ) (y : Option ℚ) : Bool :=
  match y with
  | none => false
  | some v => decide (v ≤ x)

/-! ## Record models (`src/js/models/models.js`) -/

/-- The `alerts` sub-object of a `Budget`
(`{warning: 80, danger: 100}` by default). -/
structure Alerts where
  warning : ℚ
  danger : ℚ
  deriving DecidableEq, Repr

/-- The `Income` model: the fields its constructor assigns. -/
structure Income where
  id : String
  title : String
  amount : ℚ
  category : String
  date : String
  recurring : Bool
  recurrenceInterval : String
  notes : String
  source : String
  tags : List String
  deriving DecidableEq, Repr

/-- A plain JS object passed to the `Income` constructor or to
`Income.update` (each property possibly absent). -/
structure IncomeData where
  id : Option String := none
  title : Option String := none
  amount : Option ℚ := none
  category : Option String := none
  date : Option String := none
  recurring : Option Bool := none
  recurrenceInterval : Option String := none
  notes : Option String := none
  source : Option String := none
  tags : Option (List String) := none
  deriving DecidableEq, Repr

/-- `new Income(data)`: field-by-field `data.f || default`. `fresh` stands
for `generateID()` and `today` for `new Date().toISOString().split('T')[0]`,
both clock-dependent in the source. -/
def Income.ofData (fresh today : String) (d : IncomeData) : Income :=
  { id := jsOrS d.id fresh
    title := jsOrS d.title ""
    amount := jsOrQ d.amount 0
    category := jsOrS d.category "Salary"
    date := jsOrS d.date today
    recurring := jsOrB d.recurring false
    recurrenceInterval := jsOrS d.recurrenceInterval "monthly"
    notes := jsOrS d.notes ""
    source := jsOrS d.source ""
    tags := d.tags.getD [] }

/-- `Income.prototype.update(data)`: assigns exactly the properties that
are present (`!== undefined`), even falsy ones; never touches `id`. -/
def Income.update (i : Income) (d : IncomeData) : Income :=
  { i with
    title := d.title.getD i.title
    amount := d.amount.getD i.amount
    category := d.category.getD i.category
    date := d.date.getD i.date
    recurring := d.recurring.getD i.recurring
    recurrenceInterval := d.recurrenceInterval.getD i.recurrenceInterval
    notes := d.notes.getD i.notes
    source := d.source.getD i.source
    tags := d.tags.getD i.tags }

/-- `Income.prototype.toJSON()`: every field serialized, none absent. -/
def Income.toJSON (i : Income) : IncomeData :=
  { id := some i.id
    title := some i.title
    amount := some i.amount
    category := some i.category
    date := some i.date
    recurring := some i.recurring
    recurrenceInterval := some i.recurrenceInterval
    notes := some i.notes
    source := some i.source
    tags := some i.tags }

/-- The `Expense` model. `receipt` and `location` are nullable. -/
structure Expense where
  id : String
  title : String
  amount : ℚ
  category : String
  date : String
  recurring : Bool
  recurrenceInterval : String
  paymentMethod : String
  notes : String
  tags : List String
  receipt : Option String
  location : Option String
  deriving DecidableEq, Repr

/-- A plain JS object passed to the `Expense` constructor or to
`Expense.update`. -/
structure ExpenseData where
  id : Option String := none
  title : Option String := none
  amount : Option ℚ := none
  category : Option String := none
  date : Option String := none
  recurring : Option Bool := none
  recurrenceInterval : Option String := none
  paymentMethod : Option String := none
  notes : Option String := none
  tags : Option (List String) := none
  receipt : Option (Option String) := none
  location : Option (Option String) := none
  deriving DecidableEq, Repr

/-- `new Expense(data)`. -/
def Expense.ofData (fresh today : String) (d : ExpenseData) : Expense :=
  { id := jsOrS d.id fresh
    title := jsOrS d.title ""
    amount := jsOrQ d.amount 0
    category := jsOrS d.category "Miscellaneous"
    date := jsOrS d.date today
    recurring := jsOrB d.recurring false
    recurrenceInterval := jsOrS d.recurrenceInterval "monthly"
    paymentMethod := jsOrS d.paymentMethod "Cash"
    notes := jsOrS d.notes ""
    tags := d.tags.getD []
    receipt := jsOrNull d.receipt
    location := jsOrNull d.location }

/-- `Expense.prototype.update(data)`: assigns exactly the present
properties; never touches `id`. -/
def Expense.update (e : Expense) (d : ExpenseData) : Expense :=
  { e with
    title := d.title.getD e.title
    amount := d.amount.getD e.amount
    category := d.category.getD e.category
    date := d.date.getD e.date
    recurring := d.recurring.getD e.recurring
    recurrenceInterval := d.recurrenceInterval.getD e.recurrenceInterval
    paymentMethod := d.paymentMethod.getD e.paymentMethod
    notes := d.notes.getD e.notes
    tags := d.tags.getD e.tags
    receipt := d.receipt.getD e.receipt
    location := d.location.getD e.location }

/-- `Expense.prototype.toJSON()`. -/
def Expense.toJSON (e : Expense) : ExpenseData :=
  { id := some e.id
    title := some e.title
    amount := some e.amount
    category := some e.category
    date := some e.date
    recurring := some e.recurring
    recurrenceInterval := some e.recurrenceInterval
    paymentMethod := some e.paymentMethod
    notes := some e.notes
    tags := some e.tags
    receipt := some e.receipt
    location := some e.location }

/-- The `Budget` model. Alert thresholds live in the `alerts` sub-object
(`alerts.warning` / `alerts.danger`); the model defines no
`alertThreshold` or `criticalThreshold` property. -/
structure Budget where
  id : String
  category : String
  amount : ℚ
  period : String
  startDate : String
  notes : String
  rollover : Bool
  alerts : Alerts
  deriving DecidableEq, Repr

/-- A plain JS object passed to the `Budget` constructor or to
`Budget.update`. -/
structure BudgetData where
  id : Option String := none
  category : Option String := none
  amount : Option ℚ := none
  period : Option String := none
  startDate : Option String := none
  notes : Option String := none
  rollover : Option Bool := none
  alerts : Option Alerts := none
  deriving DecidableEq, Repr

/-- `new Budget(data)` (the `alerts` object is truthy whenever present,
so `data.alerts || {warning: 80, danger: 100}` is `Option.getD`). -/
def Budget.ofData (fresh today : String) (d : BudgetData) : Budget :=
  { id := jsOrS d.id fresh
    category := jsOrS d.category ""
    amount := jsOrQ d.amount 0
    period := jsOrS d.period "monthly"
    startDate := jsOrS d.startDate today
    notes := jsOrS d.notes ""
    rollover := jsOrB d.rollover false
    alerts := d.alerts.getD ⟨80, 100⟩ }

/-- `Budget.prototype.update(data)`: assigns exactly the present
properties; never touches `id`. -/
def Budget.update (b : Budget) (d : BudgetData) : Budget :=
  { b with
    category := d.category.getD b.category
    amount := d.amount.getD b.amount
    period := d.period.getD b.period
    startDate := d.startDate.getD b.startDate
    notes := d.notes.getD b.notes
    rollover := d.rollover.getD b.rollover
    alerts := d.alerts.getD b.alerts }

/-- `Budget.prototype.toJSON()`. -/
def Budget.toJSON (b : Budget) : BudgetData :=
  { id := some b.id
    category := some b.category
    amount := some b.amount
    period := some b.period
    startDate := some b.startDate
    notes := some b.notes
    rollover := some b.rollover
    alerts := some b.alerts }

/-! ## Data service (`src/js/services/dataService.js`)

The service's private state is the three in-memory collections. Every
mutating operation re-saves the owning collection, which fires a
data-changed event carrying the entity kind; the embedding returns the
list of fired event kinds alongside the new state. -/

/-- The data service's in-memory state: `incomeData`, `expenseData`,
`budgetData`. -/
structure Dataset where
  income : List Income
  expenses : List Expense
  budgets : List Budget
  deriving DecidableEq, Repr

/-- `exportData()`: the three collections serialized via `toJSON`, each
top-level array present. -/
structure ExportPayload where
  income : Option (List IncomeData)
  expenses : Option (List ExpenseData)
  budgets : Option (List BudgetData)
  deriving DecidableEq, Repr

/-- `exportData()` (dataService.js line 584). -/
def exportData (s : Dataset) : ExportPayload :=
  { income := some (s.income.map Income.toJSON)
    expenses := some (s.expenses.map Expense.toJSON)
    budgets := some (s.budgets.map Budget.toJSON) }

/-- `importData(data)` (dataService.js line 597): rejects when any of the
three top-level arrays is absent or null (falsy; an array, even empty, is
truthy), else replaces all three collections via the model constructors
and saves each, firing the three change events. Returns
(result, new state, fired events). -/
def importData (fresh today : String) (s : Dataset) (d : ExportPayload) :
    Bool × Dataset × List String :=
  match d.income, d.expenses, d.budgets with
  | some inc, some exp, some bud =>
      (true,
       { income := inc.map (Income.ofData fresh today)
         expenses := exp.map (Expense.ofData fresh today)
         budgets := bud.map (Budget.ofData fresh today) },
       ["income", "expense", "budget"])
  | _, _, _ => (false, s, [])

/-- `findIndex` on id followed by `splice(index, 1)`: remove the first
record whose id matches; report whether one was found. -/
def jsDeleteById (getId : α → String) : List α → String → Bool × List α
  | [], _ => (false, [])
  | x :: xs, i =>
      if getId x = i then (true, xs)
      else
        let r := jsDeleteById getId xs i
        (r.1, x :: r.2)

/-- `findIndex` on id followed by an in-place `update(data)` on the found
record: returns (the updated record or none, the new list). -/
def jsUpdateById (upd : α → α) (getId : α → String) :
    List α → String → Option α × List α
  | [], _ => (none, [])
  | x :: xs, i =>
      if getId x = i then (some (upd x), upd x :: xs)
      else
        let r := jsUpdateById upd getId xs i
        (r.1, x :: r.2)

/-- `deleteIncome(id)` (dataService.js line 127): `false` and no save/event
when the id is absent; else removes the first match, saves (firing the
`income` event) and returns `true`. -/
def deleteIncome (s : Dataset) (i : String) : Bool × Dataset × List String :=
  let r := jsDeleteById Income.id s.income i
  if r.1 then (true, { s with income := r.2 }, ["income"])
  else (false, s, [])

/-- `deleteExpense(id)` (dataService.js line 244). -/
def deleteExpense (s : Dataset) (i : String) : Bool × Dataset × List String :=
  let r := jsDeleteById Expense.id s.expenses i
  if r.1 then (true, { s with expenses := r.2 }, ["expense"])
  else (false, s, [])

/-- `deleteBudget(id)` (dataService.js line 358). -/
def deleteBudget (s : Dataset) (i : String) : Bool × Dataset × List String :=
  let r := jsDeleteById Budget.id s.budgets i
  if r.1 then (true, { s with budgets := r.2 }, ["budget"])
  else (false, s, [])

/-- `updateIncome(id, data)` (dataService.js line 113): `null` when the id
is absent; else updates the first match in place, saves (firing the
`income` event) and returns the updated record. -/
def updateIncome (s : Dataset) (i : String) (d : IncomeData) :
    Option Income × Dataset × List String :=
  let r := jsUpdateById (Income.update · d) Income.id s.income i
  match r.1 with
  | none => (none, s, [])
  | some x => (some x, { s with income := r.2 }, ["income"])

/-- `updateExpense(id, data)` (dataService.js line 230). -/
def updateExpense (s : Dataset) (i : String) (d : ExpenseData) :
    Option Expense × Dataset × List String :=
  let r := jsUpdateById (Expense.update · d) Expense.id s.expenses i
  match r.1 with
  | none => (none, s, [])
  | some x => (some x, { s with expenses := r.2 }, ["expense"])

/-- `updateBudget(id, data)` (dataService.js line 344). -/
def updateBudget (s : Dataset) (i : String) (d : BudgetData) :
    Option Budget × Dataset × List String :=
  let r := jsUpdateById (Budget.update · d) Budget.id s.budgets i
  match r.1 with
  | none => (none, s, [])
  | some x => (some x, { s with budgets := r.2 }, ["budget"])

/-- The object `calculateBudgetStatus` returns (the clock-dependent
`startDate`/`endDate` of the period window are not modelled). -/
structure BudgetStatus where
  id : String
  category : String
  amount : ℚ
  period : String
  spent : ℚ
  remaining : ℚ
  percentSpent : ℚ
  status : String
  deriving DecidableEq, Repr

/-- `budget.alertThreshold` as read by `calculateBudgetStatus`
(dataService.js line 412): the `Budget` model defines no such property
(its thresholds are `alerts.warning` / `alerts.danger`), so the property
access yields `undefined`. -/
def Budget.alertThreshold (_ : Budget) : Option ℚ := none

/-- `budget.criticalThreshold` as read by `calculateBudgetStatus`
(dataService.js line 415): likewise not a property of the `Budget`
model, so the access yields `undefined`. -/
def Budget.criticalThreshold (_ : Budget) : Option ℚ := none

/-- `calculateBudgetStatus(budget)` (dataService.js line 389).
`inPeriod` abstracts membership of an expense's date in the budget's
current period window (`getCurrentPeriodDates` is anchored to the
clock). -/
def calculateBudgetStatus (expenseData : List Expense)
    (inPeriod : String → Bool) (budget : Budget) : BudgetStatus :=
  let expenses := expenseData.filter
    (fun e => e.category == budget.category && inPeriod e.date)
  let spent := expenses.foldl (fun total e => total + e.amount) 0
  let remaining := max 0 (budget.amount - spent)
  let percentSpent := if budget.amount > 0 then spent / budget.amount * 100 else 100
  let status := "good"
  let status := if jsGe percentSpent budget.alertThreshold then "warning" else status
  let status := if jsGe percentSpent budget.criticalThreshold then "danger" else status
  { id := budget.id
    category := budget.category
    amount := budget.amount
    period := budget.period
    spent := spent
    remaining := remaining
    percentSpent := percentSpent
    status := status }

/-! ## CashBot insight engine (`src/unnamed/part_001`) -/

/-- `FINANCIAL_TIPS.noIncome[0]`. -/
def noIncomeTip : String :=
  "You haven't recorded any income yet. Start by adding your income sources to get personalized insights."

/-- `FINANCIAL_TIPS.noExpenses[0]`. -/
def noExpensesTip : String :=
  "You haven't recorded any expenses yet. Add your expenses to get a complete financial picture."

/-- `FINANCIAL_TIPS.highExpenses`. -/
def highExpensesTips : List String :=
  ["Your expenses are higher than your income. Consider reducing non-essential spending.",
   "Review your largest expense categories for potential savings opportunities.",
   "Consider setting up an emergency fund to handle unexpected expenses."]

/-- `FINANCIAL_TIPS.lowSavings`. -/
def lowSavingsTips : List String :=
  ["Your savings rate is lower than recommended. Try to save at least 20% of your income.",
   "Small, regular contributions to savings add up over time.",
   "Consider automating your savings by setting aside money as soon as you receive income."]

/-- `FINANCIAL_TIPS.goodSavings[0]`. -/
def goodSavingsTip : String :=
  "Great job on your savings! You're on track to meet your financial goals."

/-- `FINANCIAL_TIPS.excellent`. -/
def excellentTips : List String :=
  ["Excellent financial management! Your spending is well under control.",
   "Consider increasing your investments to make your money work harder for you.",
   "You're in a good position to increase your emergency fund or retirement contributions."]

/-- The monthly summary `analyzeFinancialHealth` destructures. -/
structure Summary where
  totalIncome : ℚ
  totalExpenses : ℚ
  balance : ℚ
  savingsRate : ℚ
  deriving DecidableEq, Repr

/-- The result of `analyzeFinancialHealth`. -/
structure Health where
  status : String
  score : ℤ
  recommendations : List String
  deriving DecidableEq, Repr

/-- `analyzeFinancialHealth(summary)` (part_001 line 82): top-down
short-circuit on no-income / no-expenses / overspending, else a
savings-rate and expense-ratio composite score, bucketed. -/
def analyzeFinancialHealth (summary : Summary) : Health :=
  if summary.totalIncome ≤ 0 then
    { status := "warning", score := 50, recommendations := [noIncomeTip] }
  else if summary.totalExpenses ≤ 0 ∧ summary.totalIncome > 0 then
    { status := "warning", score := 60, recommendations := [noExpensesTip] }
  else if summary.totalExpenses > summary.totalIncome then
    { status := "danger", score := 30,
      recommendations := [highExpensesTips[0], highExpensesTips[1]] }
  else
    let expenseRatio := summary.totalExpenses / summary.totalIncome
    let savingsScore := min (summary.savingsRate * 2) 50
    let expenseScore := max 0 (50 - expenseRatio * 50)
    let score := jsRound (savingsScore + expenseScore)
    if score ≥ 80 then
      { status := "healthy", score := score,
        recommendations := [excellentTips[0], excellentTips[1]] }
    else if score ≥ 60 then
      { status := "healthy", score := score, recommendations := [goodSavingsTip] }
    else if score ≥ 40 then
      { status := "warning", score := score,
        recommendations := [lowSavingsTips[0], lowSavingsTips[1]] }
    else
      { status := "danger", score := score,
        recommendations := [highExpensesTips[0], highExpensesTips[2]] }

/-- The allocation buckets `calculateAllocations` returns. -/
structure Allocations where
  savings : ℚ
  investment : ℚ
  emergency : ℚ
  leisure : ℚ
  deriving DecidableEq, Repr

/-- `getAllocationSettings()` + `calculateAllocations(income)` (part_001
lines 51-75). `savingsTarget` is the stored settings' `savingsTarget`
property (`none` with default settings, which define no such field); it
falls back to `DEFAULT_ALLOCATIONS.savings = 20` by `||`. The other three
percentages are the fixed `DEFAULT_ALLOCATIONS` 10/5/5. -/
def calculateAllocations (savingsTarget : Option ℚ) (income : ℚ) : Allocations :=
  { savings := income * jsOrQ savingsTarget 20 / 100
    investment := income * 10 / 100
    emergency := income * 5 / 100
    leisure := income * 5 / 100 }

/-- An entry of `getOverBudgetCategories`' result. -/
structure OverBudgetEntry where
  category : String
  budget : ℚ
  spent : ℚ
  percentSpent : ℚ
  overage : ℚ
  deriving DecidableEq, Repr

/-- The `overBudget` list the `for…in` loop of `getOverBudgetCategories`
(part_001 line 183) accumulates, in iteration order: `expensesByCategory`
is the summary's category→spent object, modelled as an association list;
`budgets` is the category→budget object, an absent key reading as
`undefined` (so `budgets[category] || 0` is 0). Skips zero/unset budgets,
keeps entries with `percentSpent ≥ 100`. -/
def overBudgetBase (expensesByCategory : List (String × ℚ))
    (budgets : String → Option ℚ) : List OverBudgetEntry :=
  expensesByCategory.foldr
    (fun (p : String × ℚ) acc =>
      let spent := p.2
      let budget := jsOrQ (budgets p.1) 0
      if budget = 0 then acc
      else
        let percentSpent := spent / budget * 100
        if percentSpent ≥ 100 then
          ({ category := p.1, budget := budget, spent := spent,
             percentSpent := percentSpent, overage := spent - budget } : OverBudgetEntry) :: acc
        else acc)
    []

/-- `getOverBudgetCategories(summary, budgets)` (part_001 line 183): the
accumulated `overBudget` list, sorted descending by `percentSpent`
(`sort((a, b) => b.percentSpent - a.percentSpent)`). -/
def getOverBudgetCategories (expensesByCategory : List (String × ℚ))
    (budgets : String → Option ℚ) : List OverBudgetEntry :=
  (overBudgetBase expensesByCategory budgets).insertionSort
    (fun a b => b.percentSpent ≤ a.percentSpent)

/-! ## Helper lemmas -/

lemma jsOrS_some_of_ne {s : String} (h : s ≠ "") (d : String) :
    jsOrS (some s) d = s := by
  show (if s = "" then d else s) = s
  rw [if_neg h]

lemma jsOrS_some_empty (s : String) : jsOrS (some s) "" = s := by
  show (if s = "" then "" else s) = s
  split_ifs with h
  · exact h.symm
  · rfl

lemma jsOrQ_some_zero (q : ℚ) : jsOrQ (some q) 0 = q := by
  show (if q = 0 then 0 else q) = q
  split_ifs with h
  · exact h.symm
  · rfl

lemma jsOrB_some (b : Bool) : jsOrB (some b) false = b := by
  cases b <;> rfl

lemma jsOrS_ne_empty (x : Option String) {d : String} (hd : d ≠ "") :
    jsOrS x d ≠ "" := by
  cases x with
  | none => exact hd
  | some s =>
      show (if s = "" then d else s) ≠ ""
      split_ifs with h
      · exact hd
      · exact h

lemma jsGe_none (x : ℚ) : jsGe x none = false := rfl

/-! ## C1 -/

/-- C1: the budget-status computation is claimed to classify `status` as
`danger` when `percentSpent` reaches the danger threshold (danger winning
over warning), and in particular amount=500, alerts warning=80/danger=100,
spend=500 should give `percentSpent=100`, `status="danger"`. The code
instead reads `budget.alertThreshold` and `budget.criticalThreshold`,
properties the `Budget` model never defines (it stores the thresholds as
`alerts.warning`/`alerts.danger`), so both comparisons are against
`undefined` and false: the status is `"good"` for every budget and every
expense collection, and in particular `"good"` — not `"danger"` — at the
claimed input, where `percentSpent` is indeed 100. -/
theorem c1_threshold_fields_dead :
    (∀ (es : List Expense) (inPeriod : String → Bool) (b : Budget),
        (calculateBudgetStatus es inPeriod b).status = "good") ∧
    (calculateBudgetStatus
        [{ id := "e1", title := "groceries", amount := 500, category := "Food",
           date := "2025-01-15", recurring := false, recurrenceInterval := "monthly",
           paymentMethod := "Cash", notes := "", tags := [], receipt := none,
           location := none }]
        (fun _ => true)
        { id := "b1", category := "Food", amount := 500, period := "monthly",
          startDate := "2025-01-01", notes := "", rollover := false,
          alerts := ⟨80, 100⟩ }).percentSpent = 100 ∧
    (calculateBudgetStatus
        [{ id := "e1", title := "groceries", amount := 500, category := "Food",
           date := "2025-01-15", recurring := false, recurrenceInterval := "monthly",
           paymentMethod := "Cash", notes := "", tags := [], receipt := none,
           location := none }]
        (fun _ => true)
        { id := "b1", category := "Food", amount := 500, period := "monthly",
          startDate := "2025-01-01", notes := "", rollover := false,
          alerts := ⟨80, 100⟩ }).status = "good" := by
  refine ⟨fun es inPeriod b => ?_, ?_, ?_⟩
  · simp [calculateBudgetStatus, Budget.alertThreshold, Budget.criticalThreshold, jsGe]
  · simp [calculateBudgetStatus]
  · simp [calculateBudgetStatus, Budget.alertThreshold, Budget.criticalThreshold, jsGe]

/-! ## C4 -/

/-- C4: for every expense collection, every period window and every budget
whose `amount` is 0, the budget-status computation reports
`percentSpent = 100` (the division-by-zero guard `amount > 0 ? … : 100`),
independent of the spend. -/
theorem c4_zero_amount_percent (es : List Expense) (inPeriod : String → Bool)
    (b : Budget) (h : b.amount = 0) :
    (calculateBudgetStatus es inPeriod b).percentSpent = 100 := by
  simp [calculateBudgetStatus, h]

/-- Witness for C4 at a concrete input: a zero-amount budget with a
nonzero in-period spend reports `percentSpent = 100`. -/
theorem c4_zero_amount_percent_witness :
    (calculateBudgetStatus
        [{ id := "e1", title := "t", amount := 75, category := "Food",
           date := "2025-01-15", recurring := false, recurrenceInterval := "monthly",
           paymentMethod := "Cash", notes := "", tags := [], receipt := none,
           location := none }]
        (fun _ => true)
        { id := "b0", category := "Food", amount := 0, period := "monthly",
          startDate := "2025-01-01", notes := "", rollover := false,
          alerts := ⟨80, 100⟩ }).percentSpent = 100 :=
  c4_zero_amount_percent _ _ _ (by decide)

/-! ## C5 -/

/-- C5: whenever the summary's `totalIncome` is at most 0, regardless of
every other field, `analyzeFinancialHealth` returns status `"warning"`,
score 50, and exactly the single fixed no-income tip — the function is
pure, so the result is deterministic. -/
theorem c5_no_income (s : Summary) (h : s.totalIncome ≤ 0) :
    analyzeFinancialHealth s =
      { status := "warning", score := 50, recommendations := [noIncomeTip] } := by
  simp [analyzeFinancialHealth, h]

/-- Witness for C5 at a concrete input. -/
theorem c5_no_income_witness :
    analyzeFinancialHealth { totalIncome := 0, totalExpenses := 250, balance := -250,
                             savingsRate := 35 } =
      { status := "warning", score := 50, recommendations := [noIncomeTip] } :=
  c5_no_income _ (by decide)

/-! ## C7 -/

/-- C7: with default settings (no stored savings target, so the savings
percentage falls back to 20; investment/emergency/leisure fixed at
10/5/5), `calculateAllocations 1000` is exactly
`{savings := 200, investment := 100, emergency := 50, leisure := 50}`;
in general each bucket is `income * percentage / 100`. -/
theorem c7_allocations :
    calculateAllocations none 1000 =
      { savings := 200, investment := 100, emergency := 50, leisure := 50 } ∧
    ∀ (savingsTarget : Option ℚ) (income : ℚ),
      calculateAllocations savingsTarget income =
        { savings := income * jsOrQ savingsTarget 20 / 100
          investment := income * 10 / 100
          emergency := income * 5 / 100
          leisure := income * 5 / 100 } := by
  constructor
  · show Allocations.mk _ _ _ _ = _
    norm_num [calculateAllocations, jsOrQ]
  · intro savingsTarget income
    rfl

/-! ## C6 -/

/-- Counterexample to C6 as stated: the summary is caller-supplied and
nothing constrains `savingsRate`, so in the computed-score branch a
negative `savingsRate` drives the score far below 0. At
`totalIncome = 100`, `totalExpenses = 50`, `savingsRate = -100` the branch
is reached and the score is `round(min(-200, 50) + max(0, 25)) = -175`,
which does not lie between 0 and 100. -/
theorem c6_counterexample :
    (analyzeFinancialHealth
        { totalIncome := 100, totalExpenses := 50, balance := 50,
          savingsRate := -100 }).score = -175 ∧
    ¬(0 ≤ (analyzeFinancialHealth
        { totalIncome := 100, totalExpenses := 50, balance := 50,
          savingsRate := -100 }).score) := by
  have h : analyzeFinancialHealth
      { totalIncome := 100, totalExpenses := 50, balance := 50,
        savingsRate := -100 } =
      { status := "danger", score := -175,
        recommendations := [highExpensesTips[0], highExpensesTips[2]] } := by
    simp [analyzeFinancialHealth, jsRound]
    norm_num
  rw [h]
  norm_num

/-- C6 amended: in the computed-score branch (`totalIncome > 0`,
`totalExpenses > 0`, `totalExpenses ≤ totalIncome`) the score always
equals `round(min(savingsRate*2, 50) + max(0, 50 - expenseRatio*50))`;
and when additionally `savingsRate ≥ 0` (as it is for every summary the
application itself computes) the score lies between 0 and 100. -/
theorem c6_score_formula (s : Summary) (hti : 0 < s.totalIncome)
    (hte : 0 < s.totalExpenses) (hle : s.totalExpenses ≤ s.totalIncome) :
    (analyzeFinancialHealth s).score =
      jsRound (min (s.savingsRate * 2) 50 +
        max 0 (50 - s.totalExpenses / s.totalIncome * 50)) ∧
    (0 ≤ s.savingsRate →
      0 ≤ (analyzeFinancialHealth s).score ∧
        (analyzeFinancialHealth s).score ≤ 100) := by
  have h1 : ¬(s.totalIncome ≤ 0) := not_le.mpr hti
  have h2 : ¬(s.totalExpenses ≤ 0 ∧ s.totalIncome > 0) :=
    fun h => absurd h.1 (not_le.mpr hte)
  have h3 : ¬(s.totalExpenses > s.totalIncome) := not_lt.mpr hle
  have hscore : (analyzeFinancialHealth s).score =
      jsRound (min (s.savingsRate * 2) 50 +
        max 0 (50 - s.totalExpenses / s.totalIncome * 50)) := by
    unfold analyzeFinancialHealth
    rw [if_neg h1, if_neg h2, if_neg h3]
    dsimp only
    split_ifs <;> rfl
  refine ⟨hscore, fun hsr => ?_⟩
  rw [hscore]
  have hA1 : (0 : ℚ) ≤ min (s.savingsRate * 2) 50 :=
    le_min (by linarith) (by norm_num)
  have hA2 : min (s.savingsRate * 2) 50 ≤ 50 := min_le_right _ _
  have hr : (0 : ℚ) ≤ s.totalExpenses / s.totalIncome * 50 := by
    have := div_nonneg hte.le hti.le
    linarith
  have hB1 : (0 : ℚ) ≤ max 0 (50 - s.totalExpenses / s.totalIncome * 50) :=
    le_max_left _ _
  have hB2 : max (0 : ℚ) (50 - s.totalExpenses / s.totalIncome * 50) ≤ 50 :=
    max_le (by norm_num) (by linarith)
  unfold jsRound
  constructor
  · exact Int.le_floor.mpr (by push_cast; linarith)
  · have h100 : (100 : ℤ) = ⌊(100 : ℚ) + 1/2⌋ := by norm_num
    rw [h100]
    exact Int.floor_le_floor (by linarith)

/-- Witness for C6's amended theorem at a concrete input:
`totalIncome = 100`, `totalExpenses = 50`, `savingsRate = 20` gives
`score = round(40 + 25) = 65`, inside [0, 100]. -/
theorem c6_score_formula_witness :
    (analyzeFinancialHealth
        { totalIncome := 100, totalExpenses := 50, balance := 50,
          savingsRate := 20 }).score =
      jsRound (min ((20 : ℚ) * 2) 50 + max 0 (50 - (50 : ℚ) / 100 * 50)) ∧
    (0 ≤ (20 : ℚ) →
      0 ≤ (analyzeFinancialHealth
          { totalIncome := 100, totalExpenses := 50, balance := 50,
            savingsRate := 20 }).score ∧
        (analyzeFinancialHealth
          { totalIncome := 100, totalExpenses := 50, balance := 50,
            savingsRate := 20 }).score ≤ 100) :=
  c6_score_formula _ (by norm_num) (by norm_num) (by norm_num)

/-! ## C2 -/

/-- C2: for every starting state and every payload in which any one of the
three top-level arrays is absent, `importData` returns false, leaves all
three collections exactly as they were, and fires no change event. -/
theorem c2_import_missing_field (fresh today : String) (s : Dataset)
    (d : ExportPayload)
    (h : d.income = none ∨ d.expenses = none ∨ d.budgets = none) :
    importData fresh today s d = (false, s, []) := by
  obtain ⟨i, e, b⟩ := d
  cases i <;> cases e <;> cases b <;>
    first
      | rfl
      | (exfalso; rcases h with h | h | h <;> simp_all)

/-- Witness for C2 at a concrete input: a payload with income and expense
arrays but no budgets field is rejected and the state (one income record)
is untouched. -/
theorem c2_import_missing_field_witness :
    importData "fresh" "2025-01-01"
      { income := [{ id := "i1", title := "Pay", amount := 1200,
                     category := "Salary", date := "2025-01-02",
                     recurring := false, recurrenceInterval := "monthly",
                     notes := "", source := "", tags := [] }],
        expenses := [], budgets := [] }
      { income := some [], expenses := some [], budgets := none } =
      (false,
       { income := [{ id := "i1", title := "Pay", amount := 1200,
                      category := "Salary", date := "2025-01-02",
                      recurring := false, recurrenceInterval := "monthly",
                      notes := "", source := "", tags := [] }],
         expenses := [], budgets := [] },
       []) :=
  c2_import_missing_field _ _ _ _ (Or.inr (Or.inr rfl))

/-! ## C3 -/

/-- The invariant the `Income` constructor establishes: the fields whose
constructor default is a nonempty (truthy) string are never the empty
string. Constructor-built records satisfy it (`income_ofData_wf`), but it
is not preserved by the service's `update` API, which assigns any
property the payload carries even when falsy — `update` with
`{date: ''}` breaks it (see the C3 counterexample). -/
def Income.wf (i : Income) : Prop :=
  i.id ≠ "" ∧ i.category ≠ "" ∧ i.date ≠ "" ∧ i.recurrenceInterval ≠ ""

instance (i : Income) : Decidable i.wf := by unfold Income.wf; infer_instance

/-- The invariant the `Expense` constructor establishes (`receipt` and
`location` are `null` rather than the falsy empty string). -/
def Expense.wf (e : Expense) : Prop :=
  e.id ≠ "" ∧ e.category ≠ "" ∧ e.date ≠ "" ∧ e.recurrenceInterval ≠ "" ∧
    e.paymentMethod ≠ "" ∧ e.receipt ≠ some "" ∧ e.location ≠ some ""

instance (e : Expense) : Decidable e.wf := by unfold Expense.wf; infer_instance

/-- The invariant the `Budget` constructor establishes (its `category` and
`notes` default to `""`, which survives `data.category || ''` unchanged,
so they need no constraint). -/
def Budget.wf (b : Budget) : Prop :=
  b.id ≠ "" ∧ b.period ≠ "" ∧ b.startDate ≠ ""

instance (b : Budget) : Decidable b.wf := by unfold Budget.wf; infer_instance

/-- Every record of the state satisfies its constructor invariant. -/
def Dataset.wf (s : Dataset) : Prop :=
  (∀ i ∈ s.income, i.wf) ∧ (∀ e ∈ s.expenses, e.wf) ∧ (∀ b ∈ s.budgets, b.wf)

instance (s : Dataset) : Decidable s.wf := by unfold Dataset.wf; infer_instance

/-- The `Income` constructor establishes `Income.wf` (the generated id and
the today string are nonempty in the source). -/
lemma income_ofData_wf {fresh today : String} (hf : fresh ≠ "")
    (ht : today ≠ "") (d : IncomeData) : (Income.ofData fresh today d).wf :=
  ⟨jsOrS_ne_empty d.id hf, jsOrS_ne_empty d.category (by decide),
   jsOrS_ne_empty d.date ht, jsOrS_ne_empty d.recurrenceInterval (by decide)⟩

lemma jsOrNull_ne_some_empty (x : Option (Option String)) :
    jsOrNull x ≠ some "" := by
  rcases x with _ | _ | s
  · exact fun h => by cases h
  · exact fun h => by cases h
  · show (if s = "" then none else some s) ≠ some ""
    split_ifs with h
    · exact fun hc => by cases hc
    · exact fun hc => h (by cases hc; rfl)

/-- The `Expense` constructor establishes `Expense.wf`. -/
lemma expense_ofData_wf {fresh today : String} (hf : fresh ≠ "")
    (ht : today ≠ "") (d : ExpenseData) : (Expense.ofData fresh today d).wf :=
  ⟨jsOrS_ne_empty d.id hf, jsOrS_ne_empty d.category (by decide),
   jsOrS_ne_empty d.date ht, jsOrS_ne_empty d.recurrenceInterval (by decide),
   jsOrS_ne_empty d.paymentMethod (by decide),
   jsOrNull_ne_some_empty d.receipt, jsOrNull_ne_some_empty d.location⟩

/-- The `Budget` constructor establishes `Budget.wf`. -/
lemma budget_ofData_wf {fresh today : String} (hf : fresh ≠ "")
    (ht : today ≠ "") (d : BudgetData) : (Budget.ofData fresh today d).wf :=
  ⟨jsOrS_ne_empty d.id hf, jsOrS_ne_empty d.period (by decide),
   jsOrS_ne_empty d.startDate ht⟩

lemma jsOrNull_some (r : Option String) (h : r ≠ some "") :
    jsOrNull (some r) = r := by
  rcases r with _ | s
  · rfl
  · show (if s = "" then none else some s) = some s
    rw [if_neg (fun hs => h (by rw [hs]))]

/-- Re-constructing an `Income` from its own JSON restores it exactly. -/
lemma income_ofData_toJSON (fresh today : String) (i : Income) (h : i.wf) :
    Income.ofData fresh today i.toJSON = i := by
  obtain ⟨h1, h2, h3, h4⟩ := h
  cases i
  simp_all [Income.ofData, Income.toJSON, jsOrS_some_of_ne, jsOrS_some_empty,
    jsOrQ_some_zero, jsOrB_some]

/-- Re-constructing an `Expense` from its own JSON restores it exactly. -/
lemma expense_ofData_toJSON (fresh today : String) (e : Expense) (h : e.wf) :
    Expense.ofData fresh today e.toJSON = e := by
  obtain ⟨h1, h2, h3, h4, h5, h6, h7⟩ := h
  cases e
  simp_all [Expense.ofData, Expense.toJSON, jsOrS_some_of_ne, jsOrS_some_empty,
    jsOrQ_some_zero, jsOrB_some, jsOrNull_some]

/-- Re-constructing a `Budget` from its own JSON restores it exactly. -/
lemma budget_ofData_toJSON (fresh today : String) (b : Budget) (h : b.wf) :
    Budget.ofData fresh today b.toJSON = b := by
  obtain ⟨h1, h2, h3⟩ := h
  cases b
  simp_all [Budget.ofData, Budget.toJSON, jsOrS_some_of_ne, jsOrS_some_empty,
    jsOrQ_some_zero, jsOrB_some]

lemma map_self_of_forall {α : Type} (f : α → α) (l : List α)
    (h : ∀ x ∈ l, f x = x) : l.map f = l := by
  induction l with
  | nil => rfl
  | cons x xs ih =>
      simp only [List.map_cons, h x (List.mem_cons_self x xs)]
      rw [ih (fun y hy => h y (List.mem_cons_of_mem x hy))]

/-- C3 amended: for every state of the three collections whose records
satisfy the constructor invariant (`Dataset.wf`: the truthy-defaulted
string fields are nonempty, `receipt`/`location` not the empty string),
importing the export succeeds and restores the three collections
exactly — the same records, with identical field contents — whatever id
and today string the constructors would have generated. The restriction
is necessary: a partial update carrying an explicitly falsy field
produces a reachable non-wf state on which the round-trip rewrites the
record (see `c3_counterexample`). -/
theorem c3_export_import_roundtrip (fresh today : String) (s : Dataset)
    (h : s.wf) :
    importData fresh today s (exportData s) =
      (true, s, ["income", "expense", "budget"]) := by
  obtain ⟨h1, h2, h3⟩ := h
  obtain ⟨inc, exp, bud⟩ := s
  simp only [importData, exportData, List.map_map]
  rw [map_self_of_forall (Income.ofData fresh today ∘ Income.toJSON) inc
        (fun i hi => income_ofData_toJSON fresh today i (h1 i hi)),
      map_self_of_forall (Expense.ofData fresh today ∘ Expense.toJSON) exp
        (fun e he => expense_ofData_toJSON fresh today e (h2 e he)),
      map_self_of_forall (Budget.ofData fresh today ∘ Budget.toJSON) bud
        (fun b hb => budget_ofData_toJSON fresh today b (h3 b hb))]

/-- Witness for C3 at a concrete state with one record per collection. -/
theorem c3_export_import_roundtrip_witness :
    importData "f1" "2025-02-01"
      { income := [{ id := "i1", title := "Pay", amount := 1200,
                     category := "Salary", date := "2025-01-02",
                     recurring := true, recurrenceInterval := "monthly",
                     notes := "", source := "Employer", tags := ["work"] }],
        expenses := [{ id := "e1", title := "Rent", amount := 800,
                       category := "Housing", date := "2025-01-03",
                       recurring := true, recurrenceInterval := "monthly",
                       paymentMethod := "Bank Transfer", notes := "",
                       tags := [], receipt := none, location := none }],
        budgets := [{ id := "b1", category := "Housing", amount := 900,
                      period := "monthly", startDate := "2025-01-01",
                      notes := "", rollover := false, alerts := ⟨80, 100⟩ }] }
      (exportData
        { income := [{ id := "i1", title := "Pay", amount := 1200,
                       category := "Salary", date := "2025-01-02",
                       recurring := true, recurrenceInterval := "monthly",
                       notes := "", source := "Employer", tags := ["work"] }],
          expenses := [{ id := "e1", title := "Rent", amount := 800,
                         category := "Housing", date := "2025-01-03",
                         recurring := true, recurrenceInterval := "monthly",
                         paymentMethod := "Bank Transfer", notes := "",
                         tags := [], receipt := none, location := none }],
          budgets := [{ id := "b1", category := "Housing", amount := 900,
                        period := "monthly", startDate := "2025-01-01",
                        notes := "", rollover := false, alerts := ⟨80, 100⟩ }] }) =
      (true,
       { income := [{ id := "i1", title := "Pay", amount := 1200,
                      category := "Salary", date := "2025-01-02",
                      recurring := true, recurrenceInterval := "monthly",
                      notes := "", source := "Employer", tags := ["work"] }],
         expenses := [{ id := "e1", title := "Rent", amount := 800,
                        category := "Housing", date := "2025-01-03",
                        recurring := true, recurrenceInterval := "monthly",
                        paymentMethod := "Bank Transfer", notes := "",
                        tags := [], receipt := none, location := none }],
         budgets := [{ id := "b1", category := "Housing", amount := 900,
                       period := "monthly", startDate := "2025-01-01",
                       notes := "", rollover := false, alerts := ⟨80, 100⟩ }] },
       ["income", "expense", "budget"]) :=
  c3_export_import_roundtrip "f1" "2025-02-01" _ (by decide)

/-- Counterexample to C3 as stated ("for every state of the three
collections"): the update API assigns any property the payload carries,
even a falsy one, so `updateIncome` with `{date: ''}` takes a
constructor-built state to a reachable state whose record has an empty
date; on that state the round-trip does not restore the collections —
re-importing the export rewrites the empty date to the today string
(`data.date || today`), so the record comes back changed. -/
theorem c3_counterexample :
    (updateIncome
        { income := [{ id := "i1", title := "Pay", amount := 100,
                       category := "Salary", date := "2025-01-02",
                       recurring := false, recurrenceInterval := "monthly",
                       notes := "", source := "", tags := [] }],
          expenses := [], budgets := [] }
        "i1" { date := some "" }).2.1 =
      { income := [{ id := "i1", title := "Pay", amount := 100,
                     category := "Salary", date := "",
                     recurring := false, recurrenceInterval := "monthly",
                     notes := "", source := "", tags := [] }],
        expenses := [], budgets := [] } ∧
    (importData "f1" "2025-02-01"
        { income := [{ id := "i1", title := "Pay", amount := 100,
                       category := "Salary", date := "",
                       recurring := false, recurrenceInterval := "monthly",
                       notes := "", source := "", tags := [] }],
          expenses := [], budgets := [] }
        (exportData
          { income := [{ id := "i1", title := "Pay", amount := 100,
                         category := "Salary", date := "",
                         recurring := false, recurrenceInterval := "monthly",
                         notes := "", source := "", tags := [] }],
            expenses := [], budgets := [] })).2.1 ≠
      { income := [{ id := "i1", title := "Pay", amount := 100,
                     category := "Salary", date := "",
                     recurring := false, recurrenceInterval := "monthly",
                     notes := "", source := "", tags := [] }],
        expenses := [], budgets := [] } := by
  constructor
  · rfl
  · intro h
    have hd : (importData "f1" "2025-02-01"
        { income := [{ id := "i1", title := "Pay", amount := 100,
                       category := "Salary", date := "",
                       recurring := false, recurrenceInterval := "monthly",
                       notes := "", source := "", tags := [] }],
          expenses := [], budgets := [] }
        (exportData
          { income := [{ id := "i1", title := "Pay", amount := 100,
                         category := "Salary", date := "",
                         recurring := false, recurrenceInterval := "monthly",
                         notes := "", source := "", tags := [] }],
            expenses := [], budgets := [] })).2.1.income.map Income.date =
        ["2025-02-01"] := rfl
    rw [h] at hd
    exact absurd hd (by decide)

/-! ## C9 -/

lemma jsDeleteById_not_found {α : Type} (getId : α → String) (l : List α)
    (i : String) (h : ∀ x ∈ l, getId x ≠ i) :
    jsDeleteById getId l i = (false, l) := by
  induction l with
  | nil => rfl
  | cons x xs ih =>
      simp only [jsDeleteById, if_neg (h x (List.mem_cons_self x xs)),
        ih (fun y hy => h y (List.mem_cons_of_mem x hy))]

lemma jsDeleteById_found {α : Type} (getId : α → String) (l₁ : List α)
    (x : α) (l₂ : List α) (i : String) (h₁ : ∀ y ∈ l₁, getId y ≠ i)
    (hx : getId x = i) :
    jsDeleteById getId (l₁ ++ x :: l₂) i = (true, l₁ ++ l₂) := by
  induction l₁ with
  | nil => simp only [List.nil_append, jsDeleteById, if_pos hx]
  | cons y ys ih =>
      simp only [List.cons_append, jsDeleteById,
        if_neg (h₁ y (List.mem_cons_self y ys)), List.append_eq]
      rw [ih (fun z hz => h₁ z (List.mem_cons_of_mem y hz))]

/-- C9: for income, expenses and budgets alike, deleting an id that
matches no record returns false, leaves the collection (indeed the whole
state) unchanged, and fires no data-changed event; deleting an id whose
first match is `x` (after a prefix `l₁` with no match) removes exactly
that record, returns true and fires the kind's change event. -/
theorem c9_delete_semantics (s : Dataset) (i : String) :
    ((∀ r ∈ s.income, r.id ≠ i) → deleteIncome s i = (false, s, [])) ∧
    ((∀ r ∈ s.expenses, r.id ≠ i) → deleteExpense s i = (false, s, [])) ∧
    ((∀ r ∈ s.budgets, r.id ≠ i) → deleteBudget s i = (false, s, [])) ∧
    (∀ l₁ x l₂, s.income = l₁ ++ x :: l₂ → (∀ y ∈ l₁, Income.id y ≠ i) →
      Income.id x = i →
      deleteIncome s i = (true, { s with income := l₁ ++ l₂ }, ["income"])) ∧
    (∀ l₁ x l₂, s.expenses = l₁ ++ x :: l₂ → (∀ y ∈ l₁, Expense.id y ≠ i) →
      Expense.id x = i →
      deleteExpense s i = (true, { s with expenses := l₁ ++ l₂ }, ["expense"])) ∧
    (∀ l₁ x l₂, s.budgets = l₁ ++ x :: l₂ → (∀ y ∈ l₁, Budget.id y ≠ i) →
      Budget.id x = i →
      deleteBudget s i = (true, { s with budgets := l₁ ++ l₂ }, ["budget"])) := by
  refine ⟨fun h => ?_, fun h => ?_, fun h => ?_,
    fun l₁ x l₂ hs h₁ hx => ?_, fun l₁ x l₂ hs h₁ hx => ?_,
    fun l₁ x l₂ hs h₁ hx => ?_⟩
  · simp [deleteIncome, jsDeleteById_not_found Income.id s.income i h]
  · simp [deleteExpense, jsDeleteById_not_found Expense.id s.expenses i h]
  · simp [deleteBudget, jsDeleteById_not_found Budget.id s.budgets i h]
  · simp [deleteIncome, hs, jsDeleteById_found Income.id l₁ x l₂ i h₁ hx]
  · simp [deleteExpense, hs, jsDeleteById_found Expense.id l₁ x l₂ i h₁ hx]
  · simp [deleteBudget, hs, jsDeleteById_found Budget.id l₁ x l₂ i h₁ hx]

/-- Witness for C9 at a concrete input: deleting an absent id from a
one-expense state returns false and changes nothing. -/
theorem c9_delete_semantics_witness :
    deleteExpense
      { income := [],
        expenses := [{ id := "e1", title := "Rent", amount := 800,
                       category := "Housing", date := "2025-01-03",
                       recurring := false, recurrenceInterval := "monthly",
                       paymentMethod := "Cash", notes := "", tags := [],
                       receipt := none, location := none }],
        budgets := [] } "missing" =
      (false,
       { income := [],
         expenses := [{ id := "e1", title := "Rent", amount := 800,
                        category := "Housing", date := "2025-01-03",
                        recurring := false, recurrenceInterval := "monthly",
                        paymentMethod := "Cash", notes := "", tags := [],
                        receipt := none, location := none }],
         budgets := [] }, []) :=
  (c9_delete_semantics _ "missing").2.1 (by decide)

/-! ## C10 -/

lemma jsUpdateById_found {α : Type} (upd : α → α) (getId : α → String)
    (l₁ : List α) (x : α) (l₂ : List α) (i : String)
    (h₁ : ∀ y ∈ l₁, getId y ≠ i) (hx : getId x = i) :
    jsUpdateById upd getId (l₁ ++ x :: l₂) i = (some (upd x), l₁ ++ upd x :: l₂) := by
  induction l₁ with
  | nil => simp only [List.nil_append, jsUpdateById, if_pos hx]
  | cons y ys ih =>
      simp only [List.cons_append, jsUpdateById,
        if_neg (h₁ y (List.mem_cons_self y ys)), List.append_eq]
      rw [ih (fun z hz => h₁ z (List.mem_cons_of_mem y hz))]

/-- `update` never touches the record's id, whatever the payload — even
one that carries an `id` field. -/
lemma income_update_id (x : Income) (d : IncomeData) : (x.update d).id = x.id := rfl

lemma expense_update_id (x : Expense) (d : ExpenseData) : (x.update d).id = x.id := rfl

lemma budget_update_id (x : Budget) (d : BudgetData) : (x.update d).id = x.id := rfl

/-- C10: for each record kind, updating a present id with any partial
payload — including one that itself carries an `id` field — rewrites only
the first matching record (to its `update` by the payload, which keeps its
id), returns that record, and leaves the collection's length, the order,
and every other record untouched. -/
theorem c10_update_frame (s : Dataset) (i : String) (dI : IncomeData)
    (dE : ExpenseData) (dB : BudgetData) :
    (∀ l₁ x l₂, s.income = l₁ ++ x :: l₂ → (∀ y ∈ l₁, Income.id y ≠ i) →
      Income.id x = i →
      updateIncome s i dI =
        (some (x.update dI), { s with income := l₁ ++ x.update dI :: l₂ },
         ["income"]) ∧
      (x.update dI).id = x.id ∧
      ((updateIncome s i dI).2.1.income.length = s.income.length)) ∧
    (∀ l₁ x l₂, s.expenses = l₁ ++ x :: l₂ → (∀ y ∈ l₁, Expense.id y ≠ i) →
      Expense.id x = i →
      updateExpense s i dE =
        (some (x.update dE), { s with expenses := l₁ ++ x.update dE :: l₂ },
         ["expense"]) ∧
      (x.update dE).id = x.id ∧
      ((updateExpense s i dE).2.1.expenses.length = s.expenses.length)) ∧
    (∀ l₁ x l₂, s.budgets = l₁ ++ x :: l₂ → (∀ y ∈ l₁, Budget.id y ≠ i) →
      Budget.id x = i →
      updateBudget s i dB =
        (some (x.update dB), { s with budgets := l₁ ++ x.update dB :: l₂ },
         ["budget"]) ∧
      (x.update dB).id = x.id ∧
      ((updateBudget s i dB).2.1.budgets.length = s.budgets.length)) := by
  refine ⟨fun l₁ x l₂ hs h₁ hx => ?_, fun l₁ x l₂ hs h₁ hx => ?_,
    fun l₁ x l₂ hs h₁ hx => ?_⟩
  · have heq : updateIncome s i dI =
        (some (x.update dI), { s with income := l₁ ++ x.update dI :: l₂ },
         ["income"]) := by
      simp [updateIncome, hs,
        jsUpdateById_found (Income.update · dI) Income.id l₁ x l₂ i h₁ hx]
    refine ⟨heq, rfl, ?_⟩
    rw [heq, hs]
    simp
  · have heq : updateExpense s i dE =
        (some (x.update dE), { s with expenses := l₁ ++ x.update dE :: l₂ },
         ["expense"]) := by
      simp [updateExpense, hs,
        jsUpdateById_found (Expense.update · dE) Expense.id l₁ x l₂ i h₁ hx]
    refine ⟨heq, rfl, ?_⟩
    rw [heq, hs]
    simp
  · have heq : updateBudget s i dB =
        (some (x.update dB), { s with budgets := l₁ ++ x.update dB :: l₂ },
         ["budget"]) := by
      simp [updateBudget, hs,
        jsUpdateById_found (Budget.update · dB) Budget.id l₁ x l₂ i h₁ hx]
    refine ⟨heq, rfl, ?_⟩
    rw [heq, hs]
    simp

/-- Witness for C10 at a concrete input: updating a budget's amount by a
payload that also carries a different `id` keeps the record's id and the
collection's single-record shape. -/
theorem c10_update_frame_witness :
    updateBudget
      { income := [], expenses := [],
        budgets := [{ id := "b1", category := "Food", amount := 300,
                      period := "monthly", startDate := "2025-01-01",
                      notes := "", rollover := false, alerts := ⟨80, 100⟩ }] }
      "b1" { id := some "evil", amount := some 450 } =
      (some { id := "b1", category := "Food", amount := 450,
              period := "monthly", startDate := "2025-01-01",
              notes := "", rollover := false, alerts := ⟨80, 100⟩ },
       { income := [], expenses := [],
         budgets := [{ id := "b1", category := "Food", amount := 450,
                       period := "monthly", startDate := "2025-01-01",
                       notes := "", rollover := false, alerts := ⟨80, 100⟩ }] },
       ["budget"]) := by
  have h := ((c10_update_frame
    { income := [], expenses := [],
      budgets := [{ id := "b1", category := "Food", amount := 300,
                    period := "monthly", startDate := "2025-01-01",
                    notes := "", rollover := false, alerts := ⟨80, 100⟩ }] }
    "b1" {} {} { id := some "evil", amount := some 450 }).2.2
    [] { id := "b1", category := "Food", amount := 300,
         period := "monthly", startDate := "2025-01-01",
         notes := "", rollover := false, alerts := ⟨80, 100⟩ } []
    rfl (by decide) rfl).1
  rw [h]
  rfl

/-! ## C8 -/

/-- Characterization of the accumulated `overBudget` list: an entry is in
it exactly when some expense category of the summary has a nonzero
configured budget and `percentSpent ≥ 100`, and the entry carries that
category's numbers. -/
lemma mem_overBudgetBase {ebc : List (String × ℚ)}
    {budgets : String → Option ℚ} {e : OverBudgetEntry} :
    e ∈ overBudgetBase ebc budgets ↔
      ∃ p ∈ ebc, jsOrQ (budgets p.1) 0 ≠ 0 ∧
        100 ≤ p.2 / jsOrQ (budgets p.1) 0 * 100 ∧
        e = { category := p.1, budget := jsOrQ (budgets p.1) 0, spent := p.2,
              percentSpent := p.2 / jsOrQ (budgets p.1) 0 * 100,
              overage := p.2 - jsOrQ (budgets p.1) 0 } := by
  induction ebc with
  | nil => simp [overBudgetBase]
  | cons p ps ih =>
      unfold overBudgetBase at ih ⊢
      simp only [List.foldr_cons]
      split_ifs with h1 h2
      · rw [ih]
        constructor
        · rintro ⟨q, hq, h⟩
          exact ⟨q, List.mem_cons_of_mem p hq, h⟩
        · rintro ⟨q, hq, hne, hg, he⟩
          rcases List.mem_cons.mp hq with rfl | hq'
          · exact absurd h1 hne
          · exact ⟨q, hq', hne, hg, he⟩
      · constructor
        · intro hmem
          rcases List.mem_cons.mp hmem with rfl | hmem'
          · exact ⟨p, List.mem_cons_self p ps, h1, h2, rfl⟩
          · obtain ⟨q, hq, h⟩ := ih.mp hmem'
            exact ⟨q, List.mem_cons_of_mem p hq, h⟩
        · rintro ⟨q, hq, hne, hg, he⟩
          rcases List.mem_cons.mp hq with rfl | hq'
          · exact he ▸ List.mem_cons_self _ _
          · exact List.mem_cons_of_mem _ (ih.mpr ⟨q, hq', hne, hg, he⟩)
      · rw [ih]
        constructor
        · rintro ⟨q, hq, h⟩
          exact ⟨q, List.mem_cons_of_mem p hq, h⟩
        · rintro ⟨q, hq, hne, hg, he⟩
          rcases List.mem_cons.mp hq with rfl | hq'
          · exact absurd hg h2
          · exact ⟨q, hq', hne, hg, he⟩

/-- C8: the over-budget report contains exactly the categories with a
nonzero configured budget and `percentSpent ≥ 100` — every entry it holds
has a nonzero budget and is at or past 100%; a category whose effective
budget is 0 (zero or absent from the mapping) never appears, whatever its
spend; every qualifying category's entry appears; and the result is
sorted in descending order of `percentSpent`. -/
theorem c8_over_budget_exact (ebc : List (String × ℚ))
    (budgets : String → Option ℚ) :
    (∀ e ∈ getOverBudgetCategories ebc budgets,
        e.budget ≠ 0 ∧ 100 ≤ e.percentSpent) ∧
    (∀ c, jsOrQ (budgets c) 0 = 0 →
      ∀ e ∈ getOverBudgetCategories ebc budgets, e.category ≠ c) ∧
    (∀ c q, (c, q) ∈ ebc → jsOrQ (budgets c) 0 ≠ 0 →
      100 ≤ q / jsOrQ (budgets c) 0 * 100 →
      ({ category := c, budget := jsOrQ (budgets c) 0, spent := q,
         percentSpent := q / jsOrQ (budgets c) 0 * 100,
         overage := q - jsOrQ (budgets c) 0 } : OverBudgetEntry) ∈
        getOverBudgetCategories ebc budgets) ∧
    List.Pairwise (fun a b => b.percentSpent ≤ a.percentSpent)
      (getOverBudgetCategories ebc budgets) := by
  have hperm : List.Perm (getOverBudgetCategories ebc budgets)
      (overBudgetBase ebc budgets) := List.perm_insertionSort _ _
  refine ⟨?_, ?_, ?_, ?_⟩
  · intro e he
    obtain ⟨q, _, hne, hg, rfl⟩ := mem_overBudgetBase.mp (hperm.mem_iff.mp he)
    exact ⟨hne, hg⟩
  · intro c h0 e he hc
    obtain ⟨q, _, hne, _, rfl⟩ := mem_overBudgetBase.mp (hperm.mem_iff.mp he)
    have hqc : q.1 = c := hc
    rw [hqc] at hne
    exact hne h0
  · intro c q hmem hne hg
    exact hperm.mem_iff.mpr (mem_overBudgetBase.mpr ⟨(c, q), hmem, hne, hg, rfl⟩)
  · haveI : IsTotal OverBudgetEntry (fun a b => b.percentSpent ≤ a.percentSpent) :=
      ⟨fun a b => le_total b.percentSpent a.percentSpent⟩
    haveI : IsTrans OverBudgetEntry (fun a b => b.percentSpent ≤ a.percentSpent) :=
      ⟨fun _ _ _ hab hbc => le_trans hbc hab⟩
    exact List.sorted_insertionSort _ _

/-- Witness for C8 at a concrete input: with a spend of 150 against a
budget of 100, the category's entry is in the report. -/
theorem c8_over_budget_exact_witness :
    ({ category := "Food", budget := jsOrQ (some 100) 0, spent := 150,
       percentSpent := 150 / jsOrQ (some 100) 0 * 100,
       overage := 150 - jsOrQ (some 100) 0 } : OverBudgetEntry) ∈
      getOverBudgetCategories [("Food", 150)] (fun _ => some 100) :=
  (c8_over_budget_exact [("Food", 150)] (fun _ => some 100)).2.2.1 "Food" 150
    (List.mem_singleton.mpr rfl) (by norm_num [jsOrQ]) (by norm_num [jsOrQ])

end CashBoard
